import Mathlib

/-!
Verification of the OTP (one-time-password) engine of the ar_studios
repository (`otp_service.py`) and of the login flow (`auth_routes.py`,
`models.py`), as a shallow embedding in Lean 4.

Modelling conventions:
* `datetime.utcnow()` is passed explicitly as `now : Nat` (seconds).
* The Redis store is a map from keys to a stored record together with an
  absolute expiry deadline (`setex key 120 v` at time `t` sets the deadline
  to `t + 120`; a `get` at time `now` sees the key iff `now < deadline`).
* The in-memory fallback store is a map from keys to records.
* SHA-256 hex digests (`hash_otp`) are modelled by an injective tagging
  function: the engine's behaviour depends on digests only through equality,
  and distinct 6-digit codes have distinct digests.
* A Redis call that raises `redis.RedisError` during an operation is
  modelled by a boolean `redisFails` argument to that operation.
* `secrets.randbelow(900000)` is modelled by an explicit draw `r : Nat`
  reduced mod 900000.
* Python code paths that raise AttributeError (attribute absent from the
  object) are modelled with `Except String`.
-/

/-- One stored OTP record, mirroring the dict built in
`OTPService.store_otp` (otp_service.py lines 66-72). -/
structure OtpData where
  hashed_otp : String
  created_at : Nat
  attempts : Nat
  purpose : String
  expires_at : Nat
deriving DecidableEq

/-- State of one `OTPService` instance: the `use_redis` flag, whether
`redis_client` is non-`None`, the Redis contents (with per-key absolute
expiry deadline from `setex`), and the in-memory fallback dict. -/
structure EngineState where
  use_redis : Bool
  has_redis_client : Bool
  redis_store : String → Option (OtpData × Nat)
  memory_store : String → Option OtpData

/-- `OTPService.__init__`: if the initial `ping` succeeds, Redis mode;
otherwise `use_redis = False` and `redis_client = None`.  Both stores
start empty. -/
def initEngine (redisAvailable : Bool) : EngineState :=
  { use_redis := redisAvailable
    has_redis_client := redisAvailable
    redis_store := fun _ => none
    memory_store := fun _ => none }

/-- Key layout used by the service: `"otp:purpose:email"`. -/
def otpKey (purpose email : String) : String :=
  "otp:" ++ purpose ++ ":" ++ email

/-- `OTPService.hash_otp`: SHA-256 hex digest of the code.  Modelled as an
injective tag (the code paths depend on digests only through equality;
SHA-256 is collision-free on the 6-digit code space). -/
def hash_otp (otp : String) : String :=
  "sha256#" ++ otp

/-- `OTPService.generate_otp`: `str(secrets.randbelow(900000) + 100000)`,
with the secure random draw made explicit as `r`. -/
def generate_otp (r : Nat) : String :=
  toString (r % 900000 + 100000)

/-- The record written by `store_otp` at time `now`:
`attempts = 0`, `created_at = now`, `expires_at = now + 120` (two minutes). -/
def mkOtpData (otp : String) (now : Nat) (purpose : String) : OtpData :=
  { hashed_otp := hash_otp otp
    created_at := now
    attempts := 0
    purpose := purpose
    expires_at := now + 120 }

/-- Pointwise update of a keyed map. -/
def updateFn {α : Type} (m : String → Option α) (k : String) (v : Option α) :
    String → Option α :=
  fun k2 => if k2 = k then v else m k2

/-- Redis `get` at time `now`: a key is visible iff its `setex` deadline has
not passed. -/
def redisGet (redis : String → Option (OtpData × Nat)) (now : Nat)
    (key : String) : Option OtpData :=
  match redis key with
  | some (d, deadline) => if now < deadline then some d else none
  | none => none

/-- `OTPService.store_otp` (otp_service.py lines 60-86).  In Redis mode it
runs `setex key 120 data`; on `redis.RedisError` it sets `use_redis = False`
and falls through to the in-memory store.  Out of Redis mode it writes the
in-memory store directly.  (The Python method always returns `True`.) -/
def store_otp (st : EngineState) (now : Nat) (email otp purpose : String)
    (redisFails : Bool) : EngineState :=
  let key := otpKey purpose email
  let data := mkOtpData otp now purpose
  if st.use_redis && st.has_redis_client then
    if redisFails then
      { st with use_redis := false
                memory_store := updateFn st.memory_store key (some data) }
    else
      { st with redis_store :=
          updateFn st.redis_store key (some (data, now + 120)) }
  else
    { st with memory_store := updateFn st.memory_store key (some data) }

/-- `OTPService._cleanup_expired_otps`: drop every in-memory record whose
`expires_at` lies strictly in the past. -/
def cleanupExpired (m : String → Option OtpData) (now : Nat) :
    String → Option OtpData :=
  fun k =>
    match m k with
    | some d => if d.expires_at < now then none else some d
    | none => none

def msgTooMany : String := "Too many failed attempts. Please request a new OTP."

def msgSuccess : String := "OTP verified successfully"

def msgInvalid : String := "Invalid OTP"

def msgExpired : String := "OTP has expired"

def msgNotFound : String := "OTP has expired or doesn\x27t exist"

/-- The in-memory half of `OTPService.verify_otp`
(otp_service.py lines 135-158): explicit `expires_at` check, then the
attempts limit (`max_attempts = 3`), then the hash comparison; a wrong
guess mutates `attempts` in place. -/
def memVerify (st : EngineState) (now : Nat) (key otp : String) :
    (Bool × String) × EngineState :=
  match st.memory_store key with
  | some d =>
    if d.expires_at < now then
      ((false, msgExpired),
       { st with memory_store := updateFn st.memory_store key none })
    else if 3 ≤ d.attempts then
      ((false, msgTooMany),
       { st with memory_store := updateFn st.memory_store key none })
    else if hash_otp otp = d.hashed_otp then
      ((true, msgSuccess),
       { st with memory_store := updateFn st.memory_store key none })
    else
      ((false, msgInvalid),
       { st with memory_store :=
           updateFn st.memory_store key (some { d with attempts := d.attempts + 1 }) })
  | none => ((false, msgNotFound), st)

/-- `OTPService.verify_otp` (otp_service.py lines 98-158).  It first sweeps
expired in-memory records, then — in Redis mode — reads the key from Redis:
attempts limit before hash comparison; success and exhaustion delete the
key; a wrong guess re-`setex`es the incremented record with a fresh 120 s
TTL.  A missing Redis key, or a `redis.RedisError` (caught and ignored,
`use_redis` untouched), falls through to the in-memory check. -/
def verify_otp (st0 : EngineState) (now : Nat) (email otp purpose : String)
    (redisFails : Bool) : (Bool × String) × EngineState :=
  let key := otpKey purpose email
  let st : EngineState :=
    { st0 with memory_store := cleanupExpired st0.memory_store now }
  if st.use_redis && st.has_redis_client then
    if redisFails then
      memVerify st now key otp
    else
      match redisGet st.redis_store now key with
      | some d =>
        if 3 ≤ d.attempts then
          ((false, msgTooMany),
           { st with redis_store := updateFn st.redis_store key none })
        else if hash_otp otp = d.hashed_otp then
          ((true, msgSuccess),
           { st with redis_store := updateFn st.redis_store key none })
        else
          let d2 : OtpData := { d with attempts := d.attempts + 1 }
          ((false, msgInvalid),
           { st with redis_store := updateFn st.redis_store key (some (d2, now + 120)) })
      | none => memVerify st now key otp
  else
    memVerify st now key otp

/-- `OTPService.send_otp_email`, reduced to its result: fails fast when
SMTP credentials are not configured, otherwise succeeds or fails with the
outcome of the SMTP exchange (`emailOk`). -/
def send_otp_email (emailEnabled emailOk : Bool) : Bool × String :=
  if !emailEnabled then
    (false, "Email sending is not configured. Please contact support.")
  else if emailOk then
    (true, "Email sent successfully")
  else
    (false, "Failed to send email")

/-- `OTPService.send_otp`: generate, store (always succeeds), then send the
email; an email failure is reported but the stored record stays. -/
def send_otp (st : EngineState) (now : Nat) (email purpose : String)
    (r : Nat) (redisFails emailEnabled emailOk : Bool) :
    (Bool × String) × EngineState :=
  let otp := generate_otp r
  let st2 := store_otp st now email otp purpose redisFails
  let e := send_otp_email emailEnabled emailOk
  if e.1 then ((true, "OTP sent successfully"), st2) else ((false, e.2), st2)

/-- `OTPService.get_otp_status` (otp_service.py lines 283-286): it returns
`self.redis_client.exists(key)` unconditionally — when `redis_client` is
`None` (construction-time fallback) this raises `AttributeError`, and a
`redis.RedisError` propagates as well; the in-memory store is never
consulted. -/
def get_otp_status (st : EngineState) (now : Nat) (email purpose : String)
    (redisFails : Bool) : Except String Bool :=
  let key := otpKey purpose email
  if !st.has_redis_client then
    Except.error "AttributeError: NoneType object has no attribute exists"
  else if redisFails then
    Except.error "redis.RedisError"
  else
    Except.ok (redisGet st.redis_store now key).isSome

/-- A record lookup across whichever store currently holds the key
(Redis entry first, then the in-memory dict). -/
def lookupRecord (st : EngineState) (key : String) : Option OtpData :=
  match st.redis_store key with
  | some (d, _) => some d
  | none => st.memory_store key

/-- The digest model is injective: two codes collide iff they are equal. -/
theorem hash_otp_injective {a b : String} (h : hash_otp a = hash_otp b) :
    a = b := by
  have h2 := congrArg String.data h
  simp [hash_otp, String.data_append] at h2
  exact String.ext h2

/-- A digest is never the plaintext code itself. -/
theorem hash_otp_ne_plain (s : String) : hash_otp s ≠ s := by
  intro h
  have h2 := congrArg String.length h
  rw [hash_otp, String.length_append] at h2
  have h3 : "sha256#".length = 7 := by decide
  omega

/-- Property behind claim C1: issue at `t0`, verify the correct code at
`t1`, verify the same code again at `t2`. -/
def c1Prop (email otp purpose : String) (b : Bool) (t0 t1 t2 : Nat) : Prop :=
  let st1 := store_otp (initEngine b) t0 email otp purpose false
  let v1 := verify_otp st1 t1 email otp purpose false
  let v2 := verify_otp v1.2 t2 email otp purpose false
  v1.1 = (true, msgSuccess)
  ∧ v1.2.redis_store (otpKey purpose email) = none
  ∧ v1.2.memory_store (otpKey purpose email) = none
  ∧ v2.1 = (false, msgNotFound)

/-- Claim C1: for every issued code, `verify` with the correct code
immediately after issue (any `t1` inside the 120 s window) succeeds and
deletes the record, and a second `verify` with the same code for the same
(purpose, recipient) returns NotFoundOrExpired; `b` selects the
shared-store (`true`) or in-memory (`false`) path. -/
theorem C1_verify_single_use (email otp purpose : String) (b : Bool)
    (t0 t1 t2 : Nat) (h : t1 < t0 + 120) : c1Prop email otp purpose b t0 t1 t2 := by
  have hne : ¬ (t0 + 120 < t1) := by omega
  cases b <;>
    simp [c1Prop, store_otp, verify_otp, memVerify, redisGet, cleanupExpired,
      updateFn, initEngine, mkOtpData, h, hne]

/-- Witness for C1 at a concrete input. -/
theorem C1_verify_single_use_witness :
    (5 : Nat) < 0 + 120 ∧ c1Prop "a@x.com" "123456" "login" true 0 5 6 :=
  ⟨by decide, C1_verify_single_use "a@x.com" "123456" "login" true 0 5 6 (by decide)⟩

/-- Trace of issue at `t0` followed by three wrong guesses (`g1 g2 g3` at
`t1 t2 t3`) and then the correct code at `t4`: all four calls fail, the
three wrong guesses with "Invalid OTP" and the fourth with the
TooManyAttempts message, after which the record is gone. -/
def fourCallProp (email otp g1 g2 g3 purpose : String) (b : Bool)
    (t0 t1 t2 t3 t4 : Nat) : Prop :=
  let st1 := store_otp (initEngine b) t0 email otp purpose false
  let w1 := verify_otp st1 t1 email g1 purpose false
  let w2 := verify_otp w1.2 t2 email g2 purpose false
  let w3 := verify_otp w2.2 t3 email g3 purpose false
  let v4 := verify_otp w3.2 t4 email otp purpose false
  w1.1 = (false, msgInvalid)
  ∧ w2.1 = (false, msgInvalid)
  ∧ w3.1 = (false, msgInvalid)
  ∧ v4.1 = (false, msgTooMany)
  ∧ v4.2.redis_store (otpKey purpose email) = none
  ∧ v4.2.memory_store (otpKey purpose email) = none

theorem four_call_trace (email otp g1 g2 g3 purpose : String) (b : Bool)
    (t0 t1 t2 t3 t4 : Nat)
    (hg1 : g1 ≠ otp) (hg2 : g2 ≠ otp) (hg3 : g3 ≠ otp)
    (ho1 : t0 ≤ t1) (ho2 : t1 ≤ t2) (ho3 : t2 ≤ t3) (ho4 : t3 ≤ t4)
    (hw : t4 < t0 + 120) :
    fourCallProp email otp g1 g2 g3 purpose b t0 t1 t2 t3 t4 := by
  have hh1 : ¬ hash_otp g1 = hash_otp otp := fun h => hg1 (hash_otp_injective h)
  have hh2 : ¬ hash_otp g2 = hash_otp otp := fun h => hg2 (hash_otp_injective h)
  have hh3 : ¬ hash_otp g3 = hash_otp otp := fun h => hg3 (hash_otp_injective h)
  have hr1 : t1 < t0 + 120 := by omega
  have hr2 : t2 < t1 + 120 := by omega
  have hr3 : t3 < t2 + 120 := by omega
  have hr4 : t4 < t3 + 120 := by omega
  have hn1 : ¬ (t0 + 120 < t1) := by omega
  have hn2 : ¬ (t0 + 120 < t2) := by omega
  have hn3 : ¬ (t0 + 120 < t3) := by omega
  have hn4 : ¬ (t0 + 120 < t4) := by omega
  cases b <;>
    simp [fourCallProp, store_otp, verify_otp, memVerify, redisGet,
      cleanupExpired, updateFn, initEngine, mkOtpData, hh1, hh2, hh3,
      hr1, hr2, hr3, hr4, hn1, hn2, hn3, hn4]

/-- Property behind claim C2: the fourth call (correct code after three
wrong guesses) fails with the TooManyAttempts message and the record no
longer exists in either store. -/
def c2Prop (email otp g1 g2 g3 purpose : String) (b : Bool)
    (t0 t1 t2 t3 t4 : Nat) : Prop :=
  let st1 := store_otp (initEngine b) t0 email otp purpose false
  let w1 := verify_otp st1 t1 email g1 purpose false
  let w2 := verify_otp w1.2 t2 email g2 purpose false
  let w3 := verify_otp w2.2 t3 email g3 purpose false
  let v4 := verify_otp w3.2 t4 email otp purpose false
  v4.1 = (false, msgTooMany)
  ∧ v4.2.redis_store (otpKey purpose email) = none
  ∧ v4.2.memory_store (otpKey purpose email) = none

/-- Claim C2: for every issued code, after 3 consecutive wrong-code verify
calls, a subsequent verify with the correct code still fails with
TooManyAttempts and the record no longer exists; the attempts-limit check
precedes the hash comparison (an exhausted record yields TooManyAttempts
even on the correct code).  Holds on both paths (`b`). -/
theorem C2_exhausted_record_unusable (email otp g1 g2 g3 purpose : String)
    (b : Bool) (t0 t1 t2 t3 t4 : Nat)
    (hg1 : g1 ≠ otp) (hg2 : g2 ≠ otp) (hg3 : g3 ≠ otp)
    (ho1 : t0 ≤ t1) (ho2 : t1 ≤ t2) (ho3 : t2 ≤ t3) (ho4 : t3 ≤ t4)
    (hw : t4 < t0 + 120) :
    c2Prop email otp g1 g2 g3 purpose b t0 t1 t2 t3 t4 := by
  have h := four_call_trace email otp g1 g2 g3 purpose b t0 t1 t2 t3 t4
    hg1 hg2 hg3 ho1 ho2 ho3 ho4 hw
  exact ⟨h.2.2.2.1, h.2.2.2.2⟩

/-- Witness for C2 at a concrete input. -/
theorem C2_exhausted_record_unusable_witness :
    ("000000" : String) ≠ "123456" ∧ (4 : Nat) < 0 + 120
    ∧ c2Prop "a@x.com" "123456" "000000" "111111" "222222" "login" false 0 1 2 3 4 :=
  ⟨by decide, by decide,
   C2_exhausted_record_unusable "a@x.com" "123456" "000000" "111111" "222222"
     "login" false 0 1 2 3 4 (by decide) (by decide) (by decide) (by decide)
     (by decide) (by decide) (by decide) (by decide)⟩

/-- Claim C3 counterexample: on a freshly issued code, the THIRD wrong
guess returns "Invalid OTP" (the attempts counter is only 2 when the
limit check runs), not the TooManyAttempts message the claim asserts. -/
theorem C3_third_wrong_guess_counterexample :
    (verify_otp (verify_otp (verify_otp
        (store_otp (initEngine false) 0 "a@x.com" "123456" "login" false)
        1 "a@x.com" "000000" "login" false).2
        2 "a@x.com" "111111" "login" false).2
        3 "a@x.com" "222222" "login" false).1 = (false, msgInvalid)
    ∧ msgInvalid ≠ msgTooMany :=
  ⟨by decide, by decide⟩

/-- Claim C3 (amended): in the scenario of three consecutive wrong-code
verify calls on a freshly issued code followed by a fourth verify with the
correct code, all four calls return failure; the three wrong guesses each
return InvalidCode ("Invalid OTP") and the fourth call returns
TooManyAttempts, after which the record is deleted. -/
theorem C3_four_call_scenario (email otp g1 g2 g3 purpose : String) (b : Bool)
    (t0 t1 t2 t3 t4 : Nat)
    (hg1 : g1 ≠ otp) (hg2 : g2 ≠ otp) (hg3 : g3 ≠ otp)
    (ho1 : t0 ≤ t1) (ho2 : t1 ≤ t2) (ho3 : t2 ≤ t3) (ho4 : t3 ≤ t4)
    (hw : t4 < t0 + 120) :
    fourCallProp email otp g1 g2 g3 purpose b t0 t1 t2 t3 t4 :=
  four_call_trace email otp g1 g2 g3 purpose b t0 t1 t2 t3 t4
    hg1 hg2 hg3 ho1 ho2 ho3 ho4 hw

/-- Witness for the amended C3 at a concrete input. -/
theorem C3_four_call_scenario_witness :
    ("000000" : String) ≠ "123456" ∧ (4 : Nat) < 0 + 120
    ∧ fourCallProp "a@x.com" "123456" "000000" "111111" "222222" "login" true 0 1 2 3 4 :=
  ⟨by decide, by decide,
   C3_four_call_scenario "a@x.com" "123456" "000000" "111111" "222222"
     "login" true 0 1 2 3 4 (by decide) (by decide) (by decide) (by decide)
     (by decide) (by decide) (by decide) (by decide)⟩

/-- Claim C4 counterexample, in the shared-store path: issue at t=0
(record `expires_at` = 120); a wrong guess at t=110 re-`setex`es the
record with a fresh 120 s TTL (attempts = 1, so attempts remain); a verify
with the correct code at t=130 — strictly after `expires_at` — still
SUCCEEDS instead of failing with NotFoundOrExpired. -/
theorem C4_expiry_counterexample :
    (let s1 := (verify_otp (store_otp (initEngine true) 0 "a@x.com" "123456" "login" false)
                  110 "a@x.com" "000000" "login" false).2
     (s1.redis_store (otpKey "login" "a@x.com")).map (fun p => p.1.expires_at) = some 120
     ∧ (s1.redis_store (otpKey "login" "a@x.com")).map (fun p => p.1.attempts) = some 1
     ∧ (verify_otp s1 130 "a@x.com" "123456" "login" false).1 = (true, msgSuccess)) :=
  ⟨by decide, by decide, by decide⟩

/-- Property behind the amended claim C4: (1) in the in-memory fallback
path, a verify after the stored record's `expires_at` always fails with
NotFoundOrExpired and removes the record, whatever the attempt count;
(2) in either path, for a record untouched since issue (no TTL refresh),
a verify after `expires_at = t0 + 120` fails with NotFoundOrExpired. -/
def c4Prop (email otp purpose : String) (d : OtpData) (t0 now : Nat) : Prop :=
  (∀ st : EngineState, st.use_redis = false →
     st.memory_store (otpKey purpose email) = some d →
     d.expires_at < now →
     (verify_otp st now email otp purpose false).1 = (false, msgNotFound)
     ∧ (verify_otp st now email otp purpose false).2.memory_store
         (otpKey purpose email) = none)
  ∧ (∀ st : EngineState, st.memory_store (otpKey purpose email) = none →
     t0 + 120 < now →
     (verify_otp (store_otp st t0 email otp purpose false) now email otp purpose false).1
       = (false, msgNotFound))

/-- Claim C4 (amended): a verify after `expires_at` fails with
NotFoundOrExpired even if attempts remain — unconditionally in the
in-memory fallback path, and in the shared-store path for records whose
TTL was not refreshed by an intervening failed attempt. -/
theorem C4_expired_record_rejected (email otp purpose : String) (d : OtpData)
    (t0 now : Nat) : c4Prop email otp purpose d t0 now := by
  constructor
  · intro st h1 h2 h3
    simp [verify_otp, memVerify, cleanupExpired, updateFn, h1, h2, h3]
  · intro st hmem hlt
    have h4 : ¬ (now < t0 + 120) := by omega
    by_cases hb : (st.use_redis && st.has_redis_client) = true <;>
      simp [verify_otp, store_otp, memVerify, redisGet, cleanupExpired,
        updateFn, mkOtpData, hb, hmem, hlt, h4]

def dC4 : OtpData :=
  { hashed_otp := hash_otp "123456", created_at := 0, attempts := 1,
    purpose := "login", expires_at := 120 }

def stC4 : EngineState :=
  { use_redis := false, has_redis_client := false
    redis_store := fun _ => none
    memory_store := fun k => if k = otpKey "login" "a@x.com" then some dC4 else none }

/-- Witness for the amended C4 at a concrete input. -/
theorem C4_expired_record_rejected_witness :
    ((verify_otp stC4 130 "a@x.com" "123456" "login" false).1 = (false, msgNotFound)
     ∧ (verify_otp stC4 130 "a@x.com" "123456" "login" false).2.memory_store
         (otpKey "login" "a@x.com") = none)
    ∧ (verify_otp (store_otp (initEngine true) 0 "a@x.com" "123456" "login" false)
        130 "a@x.com" "123456" "login" false).1 = (false, msgNotFound) :=
  ⟨(C4_expired_record_rejected "a@x.com" "123456" "login" dC4 0 130).1 stC4
     rfl (by decide) (by decide),
   (C4_expired_record_rejected "a@x.com" "123456" "login" dC4 0 130).2
     (initEngine true) rfl (by decide)⟩

/-- Property behind claim C5: after a second issue under the same
(purpose, recipient) key, the only record under that key carries the
second code's hash, and a verify with the first (distinct) code fails —
at any time `t2` — in both paths. -/
def c5Prop (email otp1 otp2 purpose : String) (b : Bool) (t0 t1 t2 : Nat) : Prop :=
  let st2 := store_otp (store_otp (initEngine b) t0 email otp1 purpose false)
    t1 email otp2 purpose false
  (lookupRecord st2 (otpKey purpose email)).map (fun d => d.hashed_otp)
    = some (hash_otp otp2)
  ∧ (verify_otp st2 t2 email otp1 purpose false).1.1 = false

/-- Claim C5: issue overwrites any prior record under the same key, so
after a second issue the first code — even if unused and unexpired — no
longer passes verify (in both paths, for distinct codes). -/
theorem C5_reissue_invalidates_prior (email otp1 otp2 purpose : String)
    (b : Bool) (t0 t1 t2 : Nat) (hne : otp1 ≠ otp2) :
    c5Prop email otp1 otp2 purpose b t0 t1 t2 := by
  have hh : ¬ hash_otp otp1 = hash_otp otp2 :=
    fun h => hne (hash_otp_injective h)
  cases b <;> rcases Nat.lt_trichotomy t2 (t1 + 120) with h | h | h <;>
    first
    | simp [c5Prop, store_otp, verify_otp, memVerify, lookupRecord, redisGet,
        cleanupExpired, updateFn, initEngine, mkOtpData, hh, h, Nat.lt_asymm h]
    | simp [c5Prop, store_otp, verify_otp, memVerify, lookupRecord, redisGet,
        cleanupExpired, updateFn, initEngine, mkOtpData, hh, h]

/-- Witness for C5 at a concrete input. -/
theorem C5_reissue_invalidates_prior_witness :
    ("111111" : String) ≠ "222222"
    ∧ c5Prop "a@x.com" "111111" "222222" "login" true 0 10 20 :=
  ⟨by decide,
   C5_reissue_invalidates_prior "a@x.com" "111111" "222222" "login" true 0 10 20
     (by decide)⟩

/-- `memVerify` never touches the `use_redis` flag. -/
theorem memVerify_use_redis (st : EngineState) (now : Nat) (key otp : String) :
    (memVerify st now key otp).2.use_redis = st.use_redis := by
  unfold memVerify
  split
  · split_ifs <;> rfl
  · rfl

/-- `memVerify` never touches the Redis contents. -/
theorem memVerify_redis_store (st : EngineState) (now : Nat) (key otp : String) :
    (memVerify st now key otp).2.redis_store = st.redis_store := by
  unfold memVerify
  split
  · split_ifs <;> rfl
  · rfl

/-- `verify_otp` never changes the `use_redis` flag — in particular a
`redis.RedisError` during verify does NOT make the fallback permanent. -/
theorem verify_otp_use_redis (st : EngineState) (now : Nat)
    (email otp purpose : String) (rf : Bool) :
    (verify_otp st now email otp purpose rf).2.use_redis = st.use_redis := by
  cases hb : st.use_redis && st.has_redis_client
  · simp [verify_otp, hb, memVerify_use_redis]
  · cases rf
    · rcases hg : redisGet st.redis_store now (otpKey purpose email) with _ | d
      · simp [verify_otp, hb, hg, memVerify_use_redis]
      · simp [verify_otp, hb, hg]
        split_ifs <;> rfl
    · simp [verify_otp, hb, memVerify_use_redis]

/-- Claim C6 counterexample: after a `redis.RedisError` inside `verify_otp`
(an operation against the shared store failing after construction),
`use_redis` is still true and the NEXT verify call reads the shared store
again — it succeeds from a record only Redis holds, which would be
impossible had the engine permanently fallen back to the (empty) in-memory
store.  Moreover after a store failure flips `use_redis` to false,
`get_otp_status` still queries the shared store: it answers `false` even
though a pending record sits in the in-memory store. -/
theorem C6_fallback_not_permanent_counterexample :
    (let st0 := store_otp (initEngine true) 0 "a@x.com" "123456" "login" false
     let w := verify_otp st0 1 "a@x.com" "000000" "login" true
     w.2.use_redis = true
     ∧ (verify_otp w.2 2 "a@x.com" "123456" "login" false).1 = (true, msgSuccess))
    ∧ (let stDeg := store_otp (initEngine true) 0 "a@x.com" "123456" "login" true
       stDeg.use_redis = false
       ∧ stDeg.memory_store (otpKey "login" "a@x.com")
           = some (mkOtpData "123456" 0 "login")
       ∧ get_otp_status stDeg 0 "a@x.com" "login" false = Except.ok false) :=
  ⟨⟨by decide, by decide⟩, by decide, by decide, rfl⟩

/-- Property behind the amended claim C6: a `redis.RedisError` during
`store_otp` (issue) flips `use_redis` to false and writes the record to
the in-memory store; a `redis.RedisError` during `verify_otp` leaves
`use_redis` unchanged (no permanent fallback); and once `use_redis` is
false, issue and verify no longer touch the Redis contents. -/
def c6Prop (st : EngineState) (now : Nat) (email otp g purpose : String) : Prop :=
  ((store_otp st now email otp purpose true).use_redis = false
   ∧ (store_otp st now email otp purpose true).memory_store (otpKey purpose email)
       = some (mkOtpData otp now purpose))
  ∧ (verify_otp st now email g purpose true).2.use_redis = st.use_redis
  ∧ (∀ st2 : EngineState, st2.use_redis = false →
      (store_otp st2 now email otp purpose false).redis_store = st2.redis_store
      ∧ (verify_otp st2 now email g purpose false).2.redis_store = st2.redis_store)

/-- Claim C6 (amended): only a shared-store failure during issue
(`store_otp`) makes the fallback permanent — it clears `use_redis` and
every later issue/verify uses the in-memory store only.  A shared-store
failure during `verify_otp` is swallowed for that call without disabling
the shared store, and `get_otp_status` contacts the shared store
unconditionally. -/
theorem C6_degraded_mode (st : EngineState) (now : Nat)
    (email otp g purpose : String) (h1 : st.use_redis = true)
    (h2 : st.has_redis_client = true) : c6Prop st now email otp g purpose := by
  refine ⟨⟨?_, ?_⟩, verify_otp_use_redis st now email g purpose true, ?_⟩
  · simp [store_otp, h1, h2]
  · simp [store_otp, h1, h2, updateFn]
  · intro st2 hu
    constructor
    · simp [store_otp, hu]
    · simp [verify_otp, hu, memVerify_redis_store]

/-- Witness for the amended C6 at a concrete input. -/
theorem C6_degraded_mode_witness :
    (initEngine true).use_redis = true
    ∧ c6Prop (initEngine true) 0 "a@x.com" "123456" "000000" "login" :=
  ⟨rfl, C6_degraded_mode (initEngine true) 0 "a@x.com" "123456" "000000" "login" rfl rfl⟩

/-- Claim C7 (code-bug evaluation): `get_otp_status` returns
`self.redis_client.exists(key)` unconditionally.  In the in-memory
fallback mode `redis_client` is `None`, so the call raises
`AttributeError` instead of returning an existence result — even when a
pending record sits in the in-memory store, which is never consulted. -/
theorem C7_status_raises_in_fallback :
    get_otp_status (initEngine false) 0 "a@x.com" "login" false
      = Except.error "AttributeError: NoneType object has no attribute exists"
    ∧ (store_otp (initEngine false) 0 "a@x.com" "123456" "login" false).memory_store
        (otpKey "login" "a@x.com") = some (mkOtpData "123456" 0 "login")
    ∧ get_otp_status (store_otp (initEngine false) 0 "a@x.com" "123456" "login" false)
        0 "a@x.com" "login" false
      = Except.error "AttributeError: NoneType object has no attribute exists" :=
  ⟨rfl, by decide, rfl⟩

/-- Property behind claim C8: `send_otp` draws a code in 100000–999999,
and stores — under key (purpose, recipient), in whichever store is
active — exactly the record
`{hashed_otp = hash(code), created_at = now, expires_at = now + 120,
attempts = 0, purpose}`; the stored digest is never the plaintext code. -/
def c8Prop (st : EngineState) (now r : Nat) (email purpose : String)
    (emailEnabled emailOk : Bool) : Prop :=
  let otp := generate_otp r
  let key := otpKey purpose email
  let st2 := (send_otp st now email purpose r false emailEnabled emailOk).2
  (100000 ≤ r % 900000 + 100000
   ∧ r % 900000 + 100000 ≤ 999999
   ∧ otp = toString (r % 900000 + 100000))
  ∧ (if st.use_redis && st.has_redis_client then
       st2.redis_store key = some (mkOtpData otp now purpose, now + 120)
     else
       st2.memory_store key = some (mkOtpData otp now purpose))
  ∧ mkOtpData otp now purpose =
      { hashed_otp := hash_otp otp, created_at := now, attempts := 0,
        purpose := purpose, expires_at := now + 120 }
  ∧ hash_otp otp ≠ otp

/-- Claim C8: every issue (`send_otp`) generates a 6-digit code in
100000–999999 and writes the record
`{hash, created_at, expires_at = created_at + 120 s, attempts = 0,
purpose}` under key (purpose, recipient); the plaintext code is never
persisted (only its one-way digest is), whether or not the delivery email
goes out. -/
theorem C8_issue_writes_hashed_record (st : EngineState) (now r : Nat)
    (email purpose : String) (emailEnabled emailOk : Bool) :
    c8Prop st now r email purpose emailEnabled emailOk := by
  refine ⟨⟨by omega, ?_, rfl⟩, ?_, rfl, hash_otp_ne_plain _⟩
  · have h := Nat.mod_lt r (show 0 < 900000 by norm_num)
    omega
  · by_cases hb : (st.use_redis && st.has_redis_client) = true <;>
      cases emailEnabled <;> cases emailOk <;>
      simp [send_otp, store_otp, send_otp_email, updateFn, hb]

/-- Columns defined on the `User` model (models.py lines 8-30).  The login
route's 2FA check reads `user.two_factor_enabled`, which is not among
them. -/
def userModelFields : List String :=
  ["id", "username", "email", "password_hash", "avatar_url", "created_at",
   "is_active", "last_login", "role", "theme_preference",
   "notifications_enabled", "is_restricted", "restriction_until",
   "restriction_reason", "is_banned", "ban_reason", "banned_at"]

/-- The slice of a `User` row that the login route reads. -/
structure UserRec where
  id : Nat
  username : String
  email : String
  password_hash : String
deriving DecidableEq

/-- `werkzeug.security.generate_password_hash`, modelled as an injective
tag (the route depends on it only through `check_password_hash`). -/
def generate_password_hash (p : String) : String :=
  "pbkdf2#" ++ p

/-- `werkzeug.security.check_password_hash`. -/
def check_password_hash (stored provided : String) : Bool :=
  stored == generate_password_hash provided

/-- Outcome of one POST to `/login`. -/
inductive LoginStep where
  | missingFields
  | invalidCredentials
  | otpPending (pendingUserId : Nat) (pendingRemember : Bool)
  | otpSendFailed (message : String)

/-- One POST to `/login` (auth_routes.py lines 32-77).  When the password
matches, line 45 evaluates `user.two_factor_enabled`; the `User` model
defines no such column, so Python raises `AttributeError` at that point.
The 2FA branch (store `pending_user_id` / `pending_remember` in the
session, `send_otp` with purpose "login", lines 46-60) is modelled from
the source but is unreachable behind the attribute check. -/
def login_post (lookup : String → Option UserRec) (otpSt : EngineState)
    (now rnd : Nat) (email password : String)
    (remember emailEnabled emailOk : Bool) :
    Except String (LoginStep × EngineState) :=
  if email == "" || password == "" then Except.ok (.missingFields, otpSt)
  else
    match lookup email with
    | none => Except.ok (.invalidCredentials, otpSt)
    | some u =>
      if u.password_hash != "" && check_password_hash u.password_hash password then
        if userModelFields.contains "two_factor_enabled" then
          let r := send_otp otpSt now email "login" rnd false emailEnabled emailOk
          if r.1.1 then Except.ok (.otpPending u.id remember, r.2)
          else Except.ok (.otpSendFailed r.1.2, r.2)
        else
          Except.error "AttributeError: two_factor_enabled"
      else Except.ok (.invalidCredentials, otpSt)

def userEx : UserRec :=
  { id := 1, username := "alice", email := "a@x.com",
    password_hash := generate_password_hash "hunter2" }

/-- Claim C9 (code-bug evaluation): `two_factor_enabled` is not a column
of the `User` model, so a login POST with a matching password raises
`AttributeError` at `user.two_factor_enabled` — no OTP is issued and no
pending session state is set, for any account. -/
theorem C9_login_two_factor_attribute_error :
    userModelFields.contains "two_factor_enabled" = false
    ∧ login_post (fun e => if e = "a@x.com" then some userEx else none)
        (initEngine true) 0 0 "a@x.com" "hunter2" true true true
      = Except.error "AttributeError: two_factor_enabled" :=
  ⟨by decide, rfl⟩

/-- Property behind claim C10: a wrong guess against a live record
(1) in the in-memory path replaces the record by `d` with only `attempts`
incremented, and (2) in the shared-store path re-`setex`es `d` with only
`attempts` incremented but with a fresh absolute deadline `now + 120`;
(3) the in-place update touches no other field, and (4) the refreshed
deadline exceeds the record's original `expires_at = created_at + 120`
whenever `created_at < now`. -/
def c10Prop (email g purpose : String) (d : OtpData) (dl now : Nat) : Prop :=
  (∀ st : EngineState, st.use_redis = false →
     st.memory_store (otpKey purpose email) = some d →
     ¬ d.expires_at < now → d.attempts < 3 → ¬ hash_otp g = d.hashed_otp →
     (verify_otp st now email g purpose false).1 = (false, msgInvalid)
     ∧ (verify_otp st now email g purpose false).2.memory_store
         (otpKey purpose email) = some { d with attempts := d.attempts + 1 })
  ∧ (∀ st : EngineState, st.use_redis = true → st.has_redis_client = true →
     st.redis_store (otpKey purpose email) = some (d, dl) → now < dl →
     d.attempts < 3 → ¬ hash_otp g = d.hashed_otp →
     (verify_otp st now email g purpose false).1 = (false, msgInvalid)
     ∧ (verify_otp st now email g purpose false).2.redis_store
         (otpKey purpose email)
       = some ({ d with attempts := d.attempts + 1 }, now + 120))
  ∧ (({ d with attempts := d.attempts + 1 } : OtpData).hashed_otp = d.hashed_otp
     ∧ ({ d with attempts := d.attempts + 1 } : OtpData).created_at = d.created_at
     ∧ ({ d with attempts := d.attempts + 1 } : OtpData).expires_at = d.expires_at
     ∧ ({ d with attempts := d.attempts + 1 } : OtpData).purpose = d.purpose)
  ∧ (d.created_at < now → d.expires_at = d.created_at + 120 →
     d.expires_at < now + 120)

/-- Claim C10: on a wrong-guess verify against a live record, the
in-memory path mutates only the `attempts` field (so a failed attempt
never extends the code's validity there), whereas the shared-store path
rewrites the record with a fresh full 120-second TTL, extending the key's
lifetime beyond the original `created_at + 120` when time has passed
since issue. -/
theorem C10_wrong_guess_frame_effect (email g purpose : String) (d : OtpData)
    (dl now : Nat) : c10Prop email g purpose d dl now := by
  refine ⟨?_, ?_, ⟨rfl, rfl, rfl, rfl⟩, by omega⟩
  · intro st h1 h2 h3 h4 h5
    have h6 : ¬ 3 ≤ d.attempts := by omega
    constructor <;>
      simp [verify_otp, memVerify, cleanupExpired, updateFn, h1, h2, h3, h5, h6]
  · intro st h1 h2 h3 h4 h5 h6
    have h7 : ¬ 3 ≤ d.attempts := by omega
    constructor <;>
      simp [verify_otp, memVerify, redisGet, cleanupExpired, updateFn,
        h1, h2, h3, h4, h6, h7]

def dC10 : OtpData :=
  { hashed_otp := hash_otp "123456", created_at := 10, attempts := 1,
    purpose := "login", expires_at := 130 }

def stC10mem : EngineState :=
  { use_redis := false, has_redis_client := false
    redis_store := fun _ => none
    memory_store := fun k => if k = otpKey "login" "a@x.com" then some dC10 else none }

def stC10red : EngineState :=
  { use_redis := true, has_redis_client := true
    redis_store := fun k => if k = otpKey "login" "a@x.com" then some (dC10, 130) else none
    memory_store := fun _ => none }

/-- Witness for C10 at a concrete input (time 20, wrong guess "000000"). -/
theorem C10_wrong_guess_frame_effect_witness :
    ((verify_otp stC10mem 20 "a@x.com" "000000" "login" false).2.memory_store
       (otpKey "login" "a@x.com") = some { dC10 with attempts := 2 })
    ∧ ((verify_otp stC10red 20 "a@x.com" "000000" "login" false).2.redis_store
       (otpKey "login" "a@x.com") = some ({ dC10 with attempts := 2 }, 140)) :=
  ⟨((C10_wrong_guess_frame_effect "a@x.com" "000000" "login" dC10 130 20).1
      stC10mem rfl (by decide) (by decide) (by decide) (by decide)).2,
   ((C10_wrong_guess_frame_effect "a@x.com" "000000" "login" dC10 130 20).2.1
      stC10red rfl rfl (by decide) (by decide) (by decide) (by decide)).2⟩
